import Mathlib

/-!
Shallow embedding of the puzzle-generation, interaction and export logic of
the NewKidGame2025 mini-game collection, together with proofs of the
behavioural properties stated about it.

Randomness model: every call to the JS PRNG (Math.random, via getRandomInt or
a coin flip) consumes one value from an explicit entropy stream; the random
comparator passed to Array.prototype.sort by shuffleArray is modelled by an
arbitrary boolean relation driving a comparison sort, so a quantification
over streams/relations ranges over the outcomes the source can produce.
-/

namespace KidGame

/-- Entropy stream feeding the PRNG model; each draw consumes one number.
An exhausted stream keeps yielding 0. -/
abbrev Entropy := List Nat

/-- Consume one number from the entropy stream. -/
def nextNat : Entropy → Nat × Entropy
  | [] => (0, [])
  | n :: e => (n, e)

/-- Model of getRandomInt (src/unnamed/part_000):
Math.floor(Math.random() * (max - min + 1)) + min.  The uniform draw is
modelled by reducing the next entropy value modulo the range size, which
realises exactly the set of values the source expression can return. -/
def getRandomInt (lo hi : Nat) (e : Entropy) : Nat × Entropy :=
  let p := nextNat e
  (lo + p.1 % (hi - lo + 1), p.2)

/-- Model of a Math.random() > 0.5 coin flip. -/
def randBool (e : Entropy) : Bool × Entropy :=
  let p := nextNat e
  (p.1 % 2 == 1, p.2)

/-- The random comparator () => Math.random() - 0.5 handed to
Array.prototype.sort is modelled by an arbitrary boolean relation on the
elements; different relations select the different permutations the
inconsistent comparator can produce. -/
abbrev Shuffler (α : Type u) := α → α → Bool

/-- Insert an element into a list, placing it before the first element the
comparator accepts it ahead of. -/
def insertCmp (r : Shuffler α) (a : α) : List α → List α
  | [] => [a]
  | b :: bs => if r a b then a :: b :: bs else b :: insertCmp r a bs

/-- Comparison sort driven by the (arbitrary) comparator relation. -/
def sortCmp (r : Shuffler α) : List α → List α
  | [] => []
  | a :: as => insertCmp r a (sortCmp r as)

/-- Value computed by shuffleArray (src/unnamed/part_000): a comparison sort
of a copy of the input under the random comparator.  Since the source
comparator answers at random, the ECMAScript sort order is unspecified and
the result is only guaranteed to be some permutation of the input; the
relation parameter selects which permutation the model produces. -/
def shuffleArrayFn (r : Shuffler α) (l : List α) : List α := sortCmp r l

/-- Heap of JS arrays, referenced by allocation index, used to state that
shuffleArray never mutates its argument. -/
structure Store (α : Type u) where
  arrays : List (List α)

/-- Read the array stored at reference i (an absent reference reads as []). -/
def Store.read (s : Store α) (i : Nat) : List α := s.arrays.getD i []

/-- shuffleArray (src/unnamed/part_000) with the receiver semantics of
[...array].sort(cmp) spelled out: the spread allocates a fresh copy of the
input array, .sort sorts that copy in place and returns its reference;
the input array itself is never written. -/
def shuffleArray (r : Shuffler α) (s : Store α) (i : Nat) : Store α × Nat :=
  let copyRef := s.arrays.length
  let afterCopy : Store α := ⟨s.arrays ++ [s.read i]⟩
  let afterSort : Store α :=
    ⟨afterCopy.arrays.set copyRef (sortCmp r (afterCopy.read copyRef))⟩
  (afterSort, copyRef)

/-- Single decimal digit as a character (domain: n ≤ 9); 48 is the code
point of the zero digit. -/
def digitChar (n : Nat) : Char := Char.ofNat (48 + n % 10)

/-- Decimal rendering of a number, as produced by a JS template literal.
Faithful for n ≤ 99; every number rendered by the games is ≤ 10. -/
def natStr (n : Nat) : String :=
  if n < 10 then String.mk [digitChar n]
  else String.mk [digitChar (n / 10 % 10), digitChar (n % 10)]

/-- Map with the element index, as in JS array.map((x, i) => ...), starting
from a given index. -/
def mapIdxFrom (f : Nat → α → β) : Nat → List α → List β
  | _, [] => []
  | i, a :: as => f i a :: mapIdxFrom f (i + 1) as

/-- The list g0 i, g0 (i+1), ..., g0 (i+n-1): shape of the index-dependent
part of a mapIdxFrom image. -/
def idxList (g0 : Nat → γ) : Nat → Nat → List γ
  | _, 0 => []
  | i, n + 1 => g0 i :: idxList g0 (i + 1) n

namespace CongSo

/-- Sum problem of the CongSo game (src/CongSo.tsx lines 6-10). -/
structure SumProblem where
  id : Nat
  numbers : List Nat
  answer : Nat
deriving DecidableEq, Repr, Inhabited

/-- numCount draws of getRandomInt(0, 9) (src/CongSo.tsx line 20). -/
def drawNumbers : Nat → Entropy → List Nat × Entropy
  | 0, e => ([], e)
  | n + 1, e =>
    let p := getRandomInt 0 9 e
    let q := drawNumbers n p.2
    (p.1 :: q.1, q.2)

/-- One problem of generateProblems (src/CongSo.tsx lines 18-22):
2 or 3 operands in [0, 9], answer = reduce((sum, num) => sum + num, 0). -/
def genProblem (i : Nat) (e : Entropy) : SumProblem × Entropy :=
  let c := getRandomInt 2 3 e
  let ns := drawNumbers c.1 c.2
  ({ id := i, numbers := ns.1, answer := ns.1.foldl (· + ·) 0 }, ns.2)

/-- The problems of generateProblems, ids starting at i. -/
def genProblemsAux : Nat → Nat → Entropy → List SumProblem × Entropy
  | 0, _, e => ([], e)
  | n + 1, i, e =>
    let p := genProblem i e
    let q := genProblemsAux n (i + 1) p.2
    (p.1 :: q.1, q.2)

/-- generateProblems (src/CongSo.tsx lines 17-26): exactly 6 problems with
ids 0..5. -/
def generateProblems (e : Entropy) : List SumProblem :=
  (genProblemsAux 6 0 e).1

end CongSo

namespace MaHoaLocal

/-- The 9 fixed icon identifiers of the local symbol-math game, in the key
order of the ICONS record (src/CongSo.tsx lines 110-114). -/
def iconKeys : List String :=
  ["holly", "gift", "skate", "gingerbread", "tree",
   "stocking", "igloo", "snowman", "bells"]

/-- Array.from({length: 9}, (_, i) => i + 1) (src/CongSo.tsx line 131). -/
def rangeOneNine : List Nat := [1, 2, 3, 4, 5, 6, 7, 8, 9]

/-- Symbol problem of the local symbol-math game (src/CongSo.tsx 116-121). -/
structure SymbolProblem where
  id : Nat
  symbol1 : String
  symbol2 : String
  answer : Nat
deriving DecidableEq, Repr

/-- Legend lookup newLegend[s] (a record keyed by icon identifier). -/
def lookupVal (legend : List (String × Nat)) (s : String) : Nat :=
  (legend.lookup s).getD 0

/-- iconKeys[i] (always in range in the source: i comes from
getRandomInt(0, 8)). -/
def iconAt (i : Nat) : String := iconKeys.getD i ""

/-- The 12 problems of generateGame (src/CongSo.tsx lines 137-146). -/
def genSymbolProblems (legend : List (String × Nat)) :
    Nat → Nat → Entropy → List SymbolProblem × Entropy
  | 0, _, e => ([], e)
  | n + 1, i, e =>
    let p1 := getRandomInt 0 8 e
    let p2 := getRandomInt 0 8 p1.2
    let s1 := iconAt p1.1
    let s2 := iconAt p2.1
    let rest := genSymbolProblems legend n (i + 1) p2.2
    ({ id := i, symbol1 := s1, symbol2 := s2,
       answer := lookupVal legend s1 + lookupVal legend s2 } :: rest.1, rest.2)

/-- generateGame (src/CongSo.tsx lines 130-151): shuffle 1..9, assign the
shuffled numbers positionally to the fixed icon keys (iconKeys.forEach with
newLegend[key] = numbers[index]), then build 12 problems. -/
def generateGame (r : Shuffler Nat) (e : Entropy) :
    List (String × Nat) × List SymbolProblem :=
  let numbers := shuffleArrayFn r rangeOneNine
  let legend := iconKeys.zip numbers
  (legend, (genSymbolProblems legend 12 0 e).1)

end MaHoaLocal

namespace NoiPhepTinh

/-- Matching item (src/Games/NoiPhepTinh.tsx lines 6-10). -/
structure MatchItem where
  id : String
  content : String
  matchId : String
deriving DecidableEq, Repr

/-- Base pair before ids are attached (content and matchId only). -/
structure MatchBase where
  content : String
  matchId : String
deriving DecidableEq, Repr

/-- One base item of generateItems (src/Games/NoiPhepTinh.tsx lines 23-27):
a = getRandomInt(0, 5), b = getRandomInt(1, 5),
content = a + " + " + b, matchId = String(a + b). -/
def genBasePair (e : Entropy) : MatchBase × Entropy :=
  let pa := getRandomInt 0 5 e
  let pb := getRandomInt 1 5 pa.2
  ({ content := natStr pa.1 ++ " + " ++ natStr pb.1,
     matchId := natStr (pa.1 + pb.1) }, pb.2)

/-- The n base items of generateItems, drawn left to right. -/
def genBasePairs : Nat → Entropy → List MatchBase × Entropy
  | 0, e => ([], e)
  | n + 1, e =>
    let p := genBasePair e
    let q := genBasePairs n p.2
    (p.1 :: q.1, q.2)

/-- generateItems (src/Games/NoiPhepTinh.tsx lines 22-35): the left column
takes the base items with ids l-0..l-4; the right column is a shuffled copy
of the base items with ids r-0..r-4, content and matchId swapped. -/
def generateItems (r : Shuffler MatchItem) (e : Entropy) :
    List MatchItem × List MatchItem :=
  let base := (genBasePairs 5 e).1
  let left := mapIdxFrom
    (fun i b => MatchItem.mk ("l-" ++ natStr i) b.content b.matchId) 0 base
  let right := shuffleArrayFn r (mapIdxFrom
    (fun i b => MatchItem.mk ("r-" ++ natStr i) b.matchId b.content) 0 base)
  (left, right)

/-- Match condition of the equation matching games, as used by the
correctness check (src/unnamed/part_007 line 237): the left item's matchId
equals the right item's content. -/
def matchesLR (l r : MatchItem) : Bool := l.matchId == r.content

end NoiPhepTinh

namespace NoiBong

/-- Matching item of the icon matching game (src/unnamed/part_007 505-508). -/
structure BongItem where
  id : String
  iconId : String
deriving DecidableEq, Repr

/-- The 5 fixed icon identifiers, in the key order of the ICONS record
(src/unnamed/part_007 lines 496-503). -/
def bongIconKeys : List String := ["leaf", "acorn", "pumpkin", "mushroom", "house"]

/-- generateItems (src/unnamed/part_007 lines 520-530): choose 5 icons by
shuffling the key set and slicing, build the left column with ids l-i and
the right column as an independently shuffled copy with ids r-i. -/
def generateItems (r1 r2 : Shuffler String) :
    List BongItem × List BongItem :=
  let chosenIcons := (shuffleArrayFn r1 bongIconKeys).take 5
  let left := mapIdxFrom (fun i s => BongItem.mk ("l-" ++ natStr i) s) 0 chosenIcons
  let right := mapIdxFrom (fun i s => BongItem.mk ("r-" ++ natStr i) s) 0
    (shuffleArrayFn r2 chosenIcons)
  (left, right)

/-- Match condition of the icon matching game
(src/unnamed/part_007 line 618): equality of iconId. -/
def matchesNB (l r : BongItem) : Bool := l.iconId == r.iconId

/-- Interaction state of the icon matching game: the selected left item and
the recorded connections (a JS object keyed by left id). -/
structure NBState where
  selectedLeft : Option BongItem
  connections : List (String × String)
deriving DecidableEq, Repr

end NoiBong

/-- JS object update {...prev, [k]: v}: an existing key keeps its position
and gets the new value, a new key is appended. -/
def setKey : List (String × String) → String → String → List (String × String)
  | [], k, v => [(k, v)]
  | (k0, v0) :: rest, k, v =>
    if k0 = k then (k, v) :: rest else (k0, v0) :: setKey rest k v

namespace NoiBong

/-- handleRightClick (src/unnamed/part_007 lines 616-623): with a left item
selected, record the connection only when the iconIds agree, and clear the
selection in either case. -/
def handleRightClick (st : NBState) (item : BongItem) : NBState :=
  match st.selectedLeft with
  | none => st
  | some l =>
    { st with
      connections :=
        if l.iconId == item.iconId then setKey st.connections l.id item.id
        else st.connections,
      selectedLeft := none }

end NoiBong

namespace MeCung

/-- Maze node (src/unnamed/part_005 lines 6-11). -/
structure MazeNode where
  id : Nat
  value : Int
  isInput : Bool
  pos : Nat × Nat
deriving DecidableEq, Repr, Inhabited

/-- Maze connection (src/unnamed/part_005 lines 13-17); from and to hold the
connected nodes, op the rendered operation string. -/
structure MazeConnection where
  fromNode : MazeNode
  toNode : MazeNode
  op : String
deriving DecidableEq, Repr

/-- The simpleMazeLayout node positions (src/unnamed/part_005 lines 28-34). -/
def simpleMazeLayout : List (Nat × Nat) :=
  [(170, 20), (320, 20), (320, 120), (170, 220), (170, 320),
   (170, 420), (320, 420), (320, 520), (170, 620), (320, 620)]

/-- The complexMazeLayout node positions (src/unnamed/part_005 lines 36-46). -/
def complexMazeLayout : List (Nat × Nat) :=
  [(20, 20), (170, 20), (170, 120), (20, 220), (20, 320), (20, 420),
   (170, 420), (170, 520), (20, 620), (170, 620), (320, 620), (320, 520),
   (320, 420), (470, 420), (320, 320), (320, 220), (470, 120), (470, 20),
   (620, 20), (620, 120), (620, 220), (620, 320), (620, 420), (620, 520),
   (470, 620), (620, 620)]

/-- Rendered operation string (add ? '+' : '-') + amount
(src/unnamed/part_005 line 61); amounts are single digits here. -/
def opString (add : Bool) (k : Nat) : String :=
  (if add then "+" else "-") ++ natStr k

/-- One value step of the maze walk (src/unnamed/part_005 lines 63-67):
add, or subtract clamped at a floor of 0 via Math.max. -/
def mazeStep (v : Int) (add : Bool) (k : Nat) : Int :=
  if add then v + k else max 0 (v - k)

/-- Walk the remaining layout positions from the previous node, drawing a
coin and an amount in [1, 9] per edge (src/unnamed/part_005 lines 57-78). -/
def genMazeSteps (prev : MazeNode) (i : Nat) :
    List (Nat × Nat) → Entropy → (List MazeNode × List MazeConnection) × Entropy
  | [], e => (([], []), e)
  | pos :: rest, e =>
    let isEnd := rest.isEmpty
    let pAdd := randBool e
    let pAmt := getRandomInt 1 9 pAdd.2
    let v1 := mazeStep prev.value pAdd.1 pAmt.1
    let node : MazeNode := { id := i, value := v1, isInput := !isEnd, pos := pos }
    let restOut := genMazeSteps node (i + 1) rest pAmt.2
    ((node :: restOut.1.1,
      { fromNode := prev, toNode := node, op := opString pAdd.1 pAmt.1 } :: restOut.1.2),
     restOut.2)

/-- generateMaze (src/unnamed/part_005 lines 27-83): pick one of the two
layouts by coin flip, start from getRandomInt(5, 15), then walk the layout
edge by edge recording node values and operation strings. -/
def generateMaze (e : Entropy) : List MazeNode × List MazeConnection :=
  let pCoin := randBool e
  let layout := if pCoin.1 then complexMazeLayout else simpleMazeLayout
  let pStart := getRandomInt 5 15 pCoin.2
  match layout with
  | [] => ([], [])
  | p0 :: rest =>
    let n0 : MazeNode :=
      { id := 0, value := (pStart.1 : Int), isInput := false, pos := p0 }
    let out := genMazeSteps n0 1 rest pStart.2
    (n0 :: out.1.1, out.1.2)

/-- Parse a decimal digit character back to its value. -/
def parseDigit (c : Char) : Option Nat :=
  if 48 ≤ c.toNat && c.toNat ≤ 57 then some (c.toNat - 48) else none

/-- Parse a recorded operation string of the form +k or -k with a single
digit k. -/
def parseOp (s : String) : Option (Bool × Nat) :=
  match s.data with
  | ['+', c] => (parseDigit c).map (fun k => (true, k))
  | ['-', c] => (parseDigit c).map (fun k => (false, k))
  | _ => none

/-- Replay a list of recorded operation strings from a start value, clamping
subtraction at a floor of 0; fails if some string is not of the form
+k or -k. -/
def replayOps (v : Int) : List String → Option (List Int)
  | [] => some []
  | s :: rest =>
    match parseOp s with
    | none => none
    | some ak =>
      let v1 := mazeStep v ak.1 ak.2
      (replayOps v1 rest).map (fun vs => v1 :: vs)

end MeCung

/-- JS whitespace test for the characters that occur in theme inputs
(models the character class folded by String.prototype.trim). -/
def isWsChar (c : Char) : Bool :=
  c == ' ' || c == '\t' || c == '\n' || c == '\r'

/-- Model of String.prototype.trim. -/
def strTrim (s : String) : String :=
  String.mk (((s.data.dropWhile isWsChar).reverse.dropWhile isWsChar).reverse)

/-- ASCII uppercase of one character (models String.prototype.toUpperCase on
the characters used by the error messages). -/
def charUpper (c : Char) : Char :=
  if 'a' ≤ c && c ≤ 'z' then Char.ofNat (c.toNat - 32) else c

/-- Model of String.prototype.toUpperCase. -/
def strUpper (s : String) : String := String.mk (s.data.map charUpper)

/-- Does the pattern occur at the head of the text? -/
def chListLeads : List Char → List Char → Bool
  | [], _ => true
  | _ :: _, [] => false
  | p :: ps, t :: ts => p == t && chListLeads ps ts

/-- Does the pattern occur anywhere in the text? -/
def chListHas (pat : List Char) : List Char → Bool
  | [] => pat.isEmpty
  | t :: ts => chListLeads pat (t :: ts) || chListHas pat ts

/-- Model of String.prototype.includes. -/
def strIncludes (s pat : String) : Bool := chListHas pat.data s.data

/-- The rate-limit test shared by the AI variants
(e.g. src/Games/NoiSo.tsx line 120): the message contains 429, or its
uppercase form contains RESOURCE_EXHAUSTED. -/
def isRateLimitMsg (m : String) : Bool :=
  strIncludes m "429" || strIncludes (strUpper m) "RESOURCE_EXHAUSTED"

/-- Outcome of one remote structured-output request, as seen after
JSON.parse: a typed payload, or a thrown error carrying a message
(transport failure, rejected promise, or parse failure). -/
inductive RemoteOutcome (α : Type u) where
  | ok : α → RemoteOutcome α
  | err : String → RemoteOutcome α
deriving DecidableEq, Repr

namespace ExportPdf

/-- The game components that expose the export pipeline, used to index the
fixed output file names. -/
inductive GameKind where
  | congSo | maHoaLocal | noiPhepTinh | noiBong | meCung
  | noiSo | timHinhDung | toTracNghiem | emojiMaHoa | dienKiTu
deriving DecidableEq, Repr

/-- The fixed file name passed to pdf.save by each game component. -/
def pdfFileName : GameKind → String
  | .congSo => "cong-so.pdf"
  | .maHoaLocal => "ma-hoa-phep-tinh.pdf"
  | .noiPhepTinh => "noi-phep-tinh.pdf"
  | .noiBong => "noi-bong.pdf"
  | .meCung => "me-cung-toan-hoc.pdf"
  | .noiSo => "noi-so.pdf"
  | .timHinhDung => "tim-hinh-dung.pdf"
  | .toTracNghiem => "to-trac-nghiem.pdf"
  | .emojiMaHoa => "ma-hoa-phep-tinh.pdf"
  | .dienKiTu => "dien-ki-tu.pdf"

/-- Page orientation of the generated document. -/
inductive PdfOrientation where
  | landscape | portrait
deriving DecidableEq, Repr

/-- The document produced by the then-handler of html2canvas
(src/CongSo.tsx lines 54-66): page format, orientation, image placement
and the saved file name. -/
structure PdfDoc where
  pageW : Nat
  pageH : Nat
  orientation : PdfOrientation
  imgX : Nat
  imgY : Nat
  imgW : Nat
  imgH : Nat
  fileName : String
deriving DecidableEq, Repr

/-- The fixed margin in points (src/CongSo.tsx line 55). -/
def pdfMargin : Nat := 40

/-- Document layout computed from the rasterized bitmap
(src/CongSo.tsx lines 54-66): page = canvas + margin on each side,
orientation landscape when pdfWidth > pdfHeight, image placed at the
margin offset with its original dimensions. -/
def exportLayout (g : GameKind) (canvasW canvasH : Nat) : PdfDoc :=
  let pdfWidth := canvasW + pdfMargin * 2
  let pdfHeight := canvasH + pdfMargin * 2
  { pageW := pdfWidth, pageH := pdfHeight,
    orientation := if pdfWidth > pdfHeight then .landscape else .portrait,
    imgX := pdfMargin, imgY := pdfMargin,
    imgW := canvasW, imgH := canvasH,
    fileName := pdfFileName g }

/-- Result of the rasterization suspension point: html2canvas resolves with
a canvas of some pixel dimensions, or rejects. -/
inductive RasterOutcome where
  | ok : Nat → Nat → RasterOutcome
  | failed : String → RasterOutcome
deriving DecidableEq, Repr

/-- Observable outcome of one exportPdf run: whether the off-screen print
container is still attached to the document afterwards, and the document
saved, if any. -/
structure ExportRun where
  offscreenAttached : Bool
  saved : Option PdfDoc
deriving DecidableEq, Repr

/-- exportPdf control flow (src/CongSo.tsx lines 34-68,
src/Games/NoiSo.tsx lines 174-208): missing surface aborts silently before
anything is mounted; otherwise the print container is appended and
html2canvas(...).then(...) removes it as the first step of the fulfillment
handler; the promise chain has no rejection handler, so nothing runs on a
rejected rasterization. -/
def exportPdf (g : GameKind) (surfaceMounted : Bool) (raster : RasterOutcome) :
    ExportRun :=
  if !surfaceMounted then { offscreenAttached := false, saved := none }
  else
    match raster with
    | .ok w h => { offscreenAttached := false, saved := some (exportLayout g w h) }
    | .failed _ => { offscreenAttached := true, saved := none }

end ExportPdf

namespace NoiSo

/-- One remote pair of the number matching game: an SVG and its object
count (src/Games/NoiSo.tsx responseSchema, lines 19-36). -/
structure PairItem where
  svg : String
  count : Int
deriving DecidableEq, Repr

/-- Left column item (src/Games/NoiSo.tsx lines 8-12). -/
structure LeftItem where
  id : String
  svg : String
  count : Int
deriving DecidableEq, Repr

/-- Right column item (src/Games/NoiSo.tsx lines 13-16). -/
structure RightItem where
  id : String
  count : Int
deriving DecidableEq, Repr

/-- The hard-coded fallback payload defaultGameData
(src/Games/NoiSo.tsx lines 39-45). -/
def defaultGameData : List PairItem :=
  [{ svg := "<svg viewBox=\"0 0 100 100\"><circle cx=\"50\" cy=\"50\" r=\"15\" fill=\"#e74c3c\"/></svg>", count := 1 },
   { svg := "<svg viewBox=\"0 0 100 100\"><rect x=\"20\" y=\"35\" width=\"30\" height=\"30\" fill=\"#3498db\"/><rect x=\"55\" y=\"35\" width=\"30\" height=\"30\" fill=\"#3498db\"/></svg>", count := 2 },
   { svg := "<svg viewBox=\"0 0 100 100\"><polygon points=\"50,15 85,50 50,85 15,50\" fill=\"#f1c40f\"/><polygon points=\"15,15 45,15 45,45 15,45\" fill=\"#f1c40f\"/><polygon points=\"55,55 85,55 85,85 55,85\" fill=\"#f1c40f\"/></svg>", count := 3 },
   { svg := "<svg viewBox=\"0 0 100 100\"><path d=\"M50 20 L60 40 L80 40 L65 55 L70 75 L50 65 L30 75 L35 55 L20 40 L40 40 Z\" fill=\"#2ecc71\"/><path d=\"M20 70 L30 90 L10 90 Z\" fill=\"#2ecc71\"/><path d=\"M80 70 L90 90 L70 90 Z\" fill=\"#2ecc71\"/><path d=\"M50 80 L60 95 L40 95 Z\" fill=\"#2ecc71\"/></svg>", count := 4 },
   { svg := "<svg viewBox=\"0 0 100 100\"><circle cx=\"25\" cy=\"25\" r=\"10\" fill=\"#9b59b6\"/><circle cx=\"75\" cy=\"25\" r=\"10\" fill=\"#9b59b6\"/><circle cx=\"50\" cy=\"50\" r=\"10\" fill=\"#9b59b6\"/><circle cx=\"25\" cy=\"75\" r=\"10\" fill=\"#9b59b6\"/><circle cx=\"75\" cy=\"75\" r=\"10\" fill=\"#9b59b6\"/></svg>", count := 5 }]

/-- Component state of the number matching game (src/Games/NoiSo.tsx
lines 49-55). -/
structure NSState where
  theme : String
  isLoading : Bool
  error : Option String
  leftItems : List LeftItem
  rightItems : List RightItem
  selectedLeft : Option LeftItem
  connections : List (String × String)
deriving DecidableEq, Repr

/-- Left item built from a pair at index i (id l-i). -/
def mkLeft (i : Nat) (it : PairItem) : LeftItem :=
  { id := "l-" ++ natStr i, svg := it.svg, count := it.count }

/-- Right item built from a pair at index i (id r-i). -/
def mkRight (i : Nat) (it : PairItem) : RightItem :=
  { id := "r-" ++ natStr i, count := it.count }

/-- loadDefaultData (src/Games/NoiSo.tsx lines 61-72): shuffle the default
payload, attach ids, shuffle the right column again, reset the interaction
state and clear the error. -/
def loadDefaultData (rBase : Shuffler PairItem) (rRight : Shuffler RightItem)
    (st : NSState) : NSState :=
  let baseItems := shuffleArrayFn rBase defaultGameData
  let newLeftItems := mapIdxFrom mkLeft 0 baseItems
  let newRightItems := shuffleArrayFn rRight (mapIdxFrom mkRight 0 baseItems)
  { st with
    leftItems := newLeftItems, rightItems := newRightItems,
    connections := [], selectedLeft := none, error := none }

/-- The message chosen by the catch block (src/Games/NoiSo.tsx 118-123). -/
def catchMessage (m : String) : String :=
  if isRateLimitMsg m then "Lượt truy cập API đã hết. Đang tải dữ liệu mặc định."
  else "Lỗi không xác định. Đang tải dữ liệu mặc định."

/-- Catch branch of generateNew (src/Games/NoiSo.tsx lines 116-128):
set the error message, load the default data (which clears the error
again), then the finally clears the loading flag. -/
def applyCatch (rBase : Shuffler PairItem) (rRight : Shuffler RightItem)
    (st : NSState) (m : String) : NSState :=
  let st1 := { st with error := some (catchMessage m) }
  let st2 := loadDefaultData rBase rRight st1
  { st2 with isLoading := false }

/-- generateNew (src/Games/NoiSo.tsx lines 74-129): blank-theme guard, then
either install the validated payload (length ≥ 5) or run the catch branch;
a thrown validation error and a rejected request take the same path. -/
def generateNew (rBase : Shuffler PairItem) (rRight : Shuffler RightItem)
    (outcome : RemoteOutcome (List PairItem)) (st : NSState) : NSState :=
  let st1 := { st with isLoading := true, error := none }
  if (strTrim st1.theme).data.isEmpty then
    { st1 with error := some "Vui lòng nhập chủ đề.", isLoading := false }
  else
    match outcome with
    | .ok data =>
      if data.length < 5 then applyCatch rBase rRight st1 "Dữ liệu từ AI không hợp lệ."
      else
        { st1 with
          leftItems := mapIdxFrom mkLeft 0 data,
          rightItems := shuffleArrayFn rRight (mapIdxFrom mkRight 0 data),
          connections := [], selectedLeft := none, isLoading := false }
    | .err m => applyCatch rBase rRight st1 m

/-- handleRightClick (src/Games/NoiSo.tsx lines 215-222): with a left item
selected, record the connection only when the counts agree, and clear the
selection in either case. -/
def handleRightClick (st : NSState) (item : RightItem) : NSState :=
  match st.selectedLeft with
  | none => st
  | some l =>
    { st with
      connections :=
        if l.count == item.count then setKey st.connections l.id item.id
        else st.connections,
      selectedLeft := none }

end NoiSo

namespace TimHinhDung

/-- Raw remote payload (src/unnamed/part_001 responseSchema, lines 16-35). -/
structure RawPuzzle where
  grid : List String
  options : List String
  correctOptionIndex : Int
deriving DecidableEq, Repr

/-- Puzzle data with the derived missing index
(src/unnamed/part_001 lines 8-13). -/
structure PuzzleData where
  grid : List String
  options : List String
  correctOptionIndex : Int
  missingIndex : Int
deriving DecidableEq, Repr

/-- Component state (src/unnamed/part_001 lines 64-67). -/
structure THState where
  isLoading : Bool
  error : Option String
  puzzle : Option PuzzleData
  selection : Option (Nat × Bool)
deriving DecidableEq, Repr

/-- The hard-coded fallback puzzle defaultPuzzles[0]
(src/unnamed/part_001 lines 38-60). -/
def defaultPuzzle : RawPuzzle :=
  { grid :=
      ["<svg viewBox=\"0 0 100 100\"><rect x=\"25\" y=\"25\" width=\"50\" height=\"50\" fill=\"red\"/></svg>",
       "<svg viewBox=\"0 0 100 100\"><circle cx=\"50\" cy=\"50\" r=\"25\" fill=\"red\"/></svg>",
       "<svg viewBox=\"0 0 100 100\"><polygon points=\"50,15 85,85 15,85\" fill=\"red\"/></svg>",
       "<svg viewBox=\"0 0 100 100\"><rect x=\"25\" y=\"25\" width=\"50\" height=\"50\" fill=\"blue\"/></svg>",
       "MISSING",
       "<svg viewBox=\"0 0 100 100\"><polygon points=\"50,15 85,85 15,85\" fill=\"blue\"/></svg>",
       "<svg viewBox=\"0 0 100 100\"><rect x=\"25\" y=\"25\" width=\"50\" height=\"50\" fill=\"green\"/></svg>",
       "<svg viewBox=\"0 0 100 100\"><circle cx=\"50\" cy=\"50\" r=\"25\" fill=\"green\"/></svg>",
       "<svg viewBox=\"0 0 100 100\"><polygon points=\"50,15 85,85 15,85\" fill=\"green\"/></svg>"],
    options :=
      ["<svg viewBox=\"0 0 100 100\"><circle cx=\"50\" cy=\"50\" r=\"25\" fill=\"red\"/></svg>",
       "<svg viewBox=\"0 0 100 100\"><circle cx=\"50\" cy=\"50\" r=\"25\" fill=\"blue\"/></svg>",
       "<svg viewBox=\"0 0 100 100\"><rect x=\"25\" y=\"25\" width=\"50\" height=\"50\" fill=\"blue\"/></svg>",
       "<svg viewBox=\"0 0 100 100\"><polygon points=\"50,15 85,85 15,85\" fill=\"green\"/></svg>",
       "<svg viewBox=\"0 0 100 100\"><circle cx=\"50\" cy=\"50\" r=\"25\" fill=\"green\"/></svg>"],
    correctOptionIndex := 1 }

/-- Model of Array.prototype.indexOf: first index of x, or -1. -/
def jsIndexOf [BEq α] (l : List α) (x : α) : Int :=
  match l.findIdx? (· == x) with
  | some i => i
  | none => -1

/-- loadDefaultPuzzle (src/unnamed/part_001 lines 70-76): install the
default puzzle with its computed missing index, and clear the error. -/
def loadDefaultPuzzle (st : THState) : THState :=
  let d := defaultPuzzle
  let missingIndex := jsIndexOf d.grid "MISSING"
  { st with
    puzzle := some { grid := d.grid, options := d.options,
                     correctOptionIndex := d.correctOptionIndex,
                     missingIndex := missingIndex },
    error := none }

/-- The message chosen by the catch block (src/unnamed/part_001 150-157). -/
def catchMessage (m : String) : String :=
  if isRateLimitMsg m then "Lượt truy cập API đã hết. Đang tải câu đố mặc định."
  else "Đã xảy ra lỗi khi tạo câu đố. Đang tải câu đố mặc định."

/-- Catch branch of generateNew (src/unnamed/part_001 lines 150-162):
set the error, load the default puzzle (which clears the error again),
then the finally clears the loading flag. -/
def applyCatch (st : THState) (m : String) : THState :=
  let st1 := { st with error := some (catchMessage m) }
  let st2 := loadDefaultPuzzle st1
  { st2 with isLoading := false }

/-- generateNew (src/unnamed/part_001 lines 78-163): reset the state, then
install the payload when the grid holds MISSING and there are exactly 5
options, otherwise run the catch branch, as for a rejected request. -/
def generateNew (outcome : RemoteOutcome RawPuzzle) (st : THState) : THState :=
  let st1 := { st with
    isLoading := true, error := none, selection := none, puzzle := none }
  match outcome with
  | .ok data =>
    let missingIndex := jsIndexOf data.grid "MISSING"
    if missingIndex == -1 || data.options.length != 5 then
      applyCatch st1 "Invalid data structure from AI."
    else
      { st1 with
        puzzle := some { grid := data.grid, options := data.options,
                         correctOptionIndex := data.correctOptionIndex,
                         missingIndex := missingIndex },
        isLoading := false }
  | .err m => applyCatch st1 m

end TimHinhDung

namespace EmojiMaHoa

/-- Legend entry of the AI symbol-math game
(src/unnamed/part_004 lines 9-12). -/
structure LegendItem where
  icon : String
  value : Int
deriving DecidableEq, Repr

/-- The operator field, restricted to + and - by the schema. -/
inductive OpSym where
  | plus | minus
deriving DecidableEq, Repr

/-- Problem as delivered by the remote payload
(src/unnamed/part_004 lines 14-20, without id). -/
structure ProblemSpec where
  operand1 : String
  operand2 : String
  operator : OpSym
  result : Int
deriving DecidableEq, Repr

/-- Problem with its id attached. -/
structure SymbolProblem where
  id : Nat
  operand1 : String
  operand2 : String
  operator : OpSym
  result : Int
deriving DecidableEq, Repr

/-- Remote payload shape (src/unnamed/part_004 lines 24-27). -/
structure GameData where
  iconMap : List LegendItem
  problems : List ProblemSpec
deriving DecidableEq, Repr

/-- The hard-coded fallback payload defaultGameData
(src/unnamed/part_004 lines 64-84). -/
def defaultGameData : GameData :=
  { iconMap :=
      [{ icon := "🐶", value := 1 }, { icon := "🐱", value := 2 },
       { icon := "🐭", value := 3 }, { icon := "🦊", value := 4 },
       { icon := "🐻", value := 5 }, { icon := "🐼", value := 6 },
       { icon := "🐨", value := 7 }, { icon := "🐯", value := 8 },
       { icon := "🦁", value := 9 }],
    problems :=
      [{ operand1 := "🐱", operand2 := "🐶", operator := .plus, result := 3 },
       { operand1 := "🦁", operand2 := "🦊", operator := .minus, result := 5 },
       { operand1 := "🐻", operand2 := "🐭", operator := .plus, result := 8 },
       { operand1 := "🐯", operand2 := "🐨", operator := .minus, result := 1 },
       { operand1 := "🐼", operand2 := "🐱", operator := .plus, result := 8 },
       { operand1 := "🦊", operand2 := "🐶", operator := .plus, result := 5 },
       { operand1 := "🐨", operand2 := "🐻", operator := .minus, result := 2 },
       { operand1 := "🐭", operand2 := "🐭", operator := .plus, result := 6 },
       { operand1 := "🦁", operand2 := "🐯", operator := .minus, result := 1 },
       { operand1 := "🐼", operand2 := "🦊", operator := .minus, result := 2 },
       { operand1 := "🐶", operand2 := "🐨", operator := .plus, result := 8 },
       { operand1 := "🐯", operand2 := "🐭", operator := .minus, result := 5 }] }

/-- Component state (src/unnamed/part_004 lines 87-92). -/
structure EMState where
  theme : String
  isLoading : Bool
  error : Option String
  legend : List LegendItem
  problems : List SymbolProblem
  userAnswers : List (Nat × String)
deriving DecidableEq, Repr

/-- Attach ids to remote problems: problems.map((p, i) => ({...p, id: i})). -/
def withIds (ps : List ProblemSpec) : List SymbolProblem :=
  mapIdxFrom
    (fun i p =>
      { id := i, operand1 := p.operand1, operand2 := p.operand2,
        operator := p.operator, result := p.result })
    0 ps

/-- loadDefaultData (src/unnamed/part_004 lines 96-103): reset the theme to
the default, install the default payload, clear answers and the error. -/
def loadDefaultData (st : EMState) : EMState :=
  { st with
    theme := "động vật",
    legend := defaultGameData.iconMap,
    problems := withIds defaultGameData.problems,
    userAnswers := [], error := none }

/-- Catch branch of generateGame (src/unnamed/part_004 lines 148-163):
only the rate-limit sub-kind loads the fallback; any other failure only
sets the error message; the finally clears the loading flag. -/
def applyCatch (st : EMState) (m : String) : EMState :=
  if isRateLimitMsg m then { (loadDefaultData st) with isLoading := false }
  else { st with error := some m, isLoading := false }

/-- generateGame (src/unnamed/part_004 lines 105-164): blank-theme guard
runs before the loading flag is touched; then install the validated
payload (iconMap length ≥ 9) or run the catch branch. -/
def generateGame (outcome : RemoteOutcome GameData) (st : EMState) : EMState :=
  if (strTrim st.theme).data.isEmpty then
    { st with error := some "Vui lòng nhập chủ đề để tạo trò chơi." }
  else
    let st1 := { st with isLoading := true, error := none }
    match outcome with
    | .ok data =>
      if data.iconMap.length < 9 then
        applyCatch st1 "Cấu trúc dữ liệu nhận từ AI không hợp lệ. Vui lòng tạo lại."
      else
        { st1 with
          legend := data.iconMap, problems := withIds data.problems,
          userAnswers := [], isLoading := false }
    | .err m => applyCatch st1 m

end EmojiMaHoa

namespace ToTracNghiem

/-- One pattern row (src/Games/ToTracNghiem.tsx lines 22-26). -/
structure PatternRow where
  id : Nat
  model : List Int
  userGrid : List Int
deriving DecidableEq, Repr

/-- Component state (src/Games/ToTracNghiem.tsx lines 29-31). -/
structure TTState where
  patterns : List PatternRow
  isLoading : Bool
  error : Option String
deriving DecidableEq, Repr

/-- Promise.all over the batch of requests: the payloads when all fulfil,
or the message of a rejected request. -/
def collectAll : List (RemoteOutcome α) → Except String (List α)
  | [] => .ok []
  | .ok a :: rest => (collectAll rest).map (fun as => a :: as)
  | .err m :: _ => .error m

/-- Validation error message for one grid; the source quotes the offending
character (src/Games/ToTracNghiem.tsx line 61). -/
def invalidGridMsg (c : Char) : String :=
  "Invalid grid data received for character " ++ String.mk [c] ++ "."

/-- The mapping over the fulfilled responses
(src/Games/ToTracNghiem.tsx lines 58-68): each grid must have exactly 25
entries; the first bad grid throws; good rows get a zeroed user grid. -/
def buildPatterns (chars : List Char) (i : Nat) :
    List (List Int) → Except String (List PatternRow)
  | [] => .ok []
  | g :: gs =>
    if g.length != 25 then .error (invalidGridMsg (chars.getD i '?'))
    else
      (buildPatterns chars (i + 1) gs).map
        (fun rows => { id := i, model := g, userGrid := List.replicate 25 0 } :: rows)

/-- The character pool (src/Games/ToTracNghiem.tsx line 40). -/
def characterPool : List Char :=
  "0123456789abcdefghijklmnopqrstuvwxyz".data

/-- generateNew (src/Games/ToTracNghiem.tsx lines 34-82): choose 8 shuffled
characters, await the batch, validate all 25-cell grids; any rejection or
invalid grid runs the catch branch, which only records the message — this
game has no fallback payload, the previous patterns stay in place. -/
def generateNew (r : Shuffler Char) (outcomes : List (RemoteOutcome (List Int)))
    (st : TTState) : TTState :=
  let st1 := { st with isLoading := true, error := none }
  let selectedChars := (shuffleArrayFn r characterPool).take 8
  match collectAll outcomes with
  | .error m => { st1 with error := some m, isLoading := false }
  | .ok grids =>
    match buildPatterns selectedChars 0 grids with
    | .error m => { st1 with error := some m, isLoading := false }
    | .ok rows => { st1 with patterns := rows, isLoading := false }

end ToTracNghiem

/-! Concrete inputs used by the closed instance checks below. -/

/-- A comparator that rejects every candidate position: under sortCmp this
realises the reversing permutation. -/
def revCmp : Shuffler α := fun _ _ => false

/-- A comparator that accepts every candidate position: under sortCmp this
realises the identity permutation. -/
def idCmp : Shuffler α := fun _ _ => true

/-- Entropy making the equation matching generator emit two base pairs with
the same sum: 0 + 3 and 1 + 2 (then 0 + 1 three times). -/
def entDupSums : Entropy := [0, 2, 1, 1]

/-- Arbitrary sample entropy. -/
def entSample : Entropy := [1, 3, 5, 7, 2, 4, 6]

/-- Entropy making the equation matching generator emit the five pairs
0 + 1, 1 + 1, 2 + 1, 3 + 1, 4 + 1, whose sums 1..5 are pairwise distinct. -/
def entDistinctSums : Entropy := [0, 0, 1, 0, 2, 0, 3, 0, 4, 0]

/-- Sample maze entropy: complex layout, start 8, then a clamped step. -/
def entMaze : Entropy := [1, 3, 0, 7, 1, 2]

/-- A malformed number matching payload: only 4 of the 5 required pairs. -/
def shortNSData : List NoiSo.PairItem :=
  [{ svg := "a", count := 1 }, { svg := "b", count := 2 },
   { svg := "c", count := 3 }, { svg := "d", count := 4 }]

/-- The malformed payload wrapped as a fulfilled response. -/
def shortNSPayload : RemoteOutcome (List NoiSo.PairItem) := .ok shortNSData

/-- Number matching state with the default theme and no items yet. -/
def emptyNSState : NoiSo.NSState :=
  { theme := "đơn giản", isLoading := true, error := none, leftItems := [],
    rightItems := [], selectedLeft := none, connections := [] }

/-- Sample selected left item of the number matching game. -/
def sampleNSLeft : NoiSo.LeftItem := { id := "l-0", svg := "<svg/>", count := 3 }

/-- Number matching state with sampleNSLeft selected. -/
def selNSState : NoiSo.NSState :=
  { emptyNSState with selectedLeft := some sampleNSLeft }

/-- Sample right item with a matching count. -/
def sampleNSRight : NoiSo.RightItem := { id := "r-1", count := 3 }

/-- Sample right item with a mismatched count. -/
def sampleNSRightBad : NoiSo.RightItem := { id := "r-2", count := 4 }

/-- Sample selected left item of the icon matching game. -/
def sampleNBLeft : NoiBong.BongItem := { id := "l-2", iconId := "leaf" }

/-- Icon matching state with sampleNBLeft selected. -/
def selNBState : NoiBong.NBState :=
  { selectedLeft := some sampleNBLeft, connections := [] }

/-- Sample right item of the icon matching game (mismatching icon). -/
def sampleNBRight : NoiBong.BongItem := { id := "r-0", iconId := "acorn" }

/-- A malformed visual-logic payload: 4 options instead of 5. -/
def shortTHRaw : TimHinhDung.RawPuzzle :=
  { grid := ["MISSING"], options := ["a", "b", "c", "d"],
    correctOptionIndex := 0 }

/-- The malformed raw puzzle wrapped as a fulfilled response. -/
def shortTHPayload : RemoteOutcome TimHinhDung.RawPuzzle := .ok shortTHRaw

/-- Empty visual-logic state. -/
def emptyTHState : TimHinhDung.THState :=
  { isLoading := false, error := none, puzzle := none, selection := none }

/-- A pattern row standing for a previously generated puzzle. -/
def sampleTTRow : ToTracNghiem.PatternRow := { id := 0, model := [1], userGrid := [0] }

/-- Grid coloring state holding a previous puzzle. -/
def sampleTTState : ToTracNghiem.TTState :=
  { patterns := [sampleTTRow], isLoading := false, error := none }

/-- Emoji symbol-math state with the default theme and no data yet. -/
def sampleEMState : EmojiMaHoa.EMState :=
  { theme := "động vật", isLoading := false, error := none, legend := [],
    problems := [], userAnswers := [] }

/-! General lemmas about the PRNG, shuffle and indexing models. -/

theorem getRandomInt_bounds (lo hi : Nat) (e : Entropy) (h : lo ≤ hi) :
    lo ≤ (getRandomInt lo hi e).1 ∧ (getRandomInt lo hi e).1 ≤ hi := by
  have hm : (nextNat e).1 % (hi - lo + 1) < hi - lo + 1 :=
    Nat.mod_lt _ (Nat.succ_pos _)
  constructor
  · show lo ≤ lo + (nextNat e).1 % (hi - lo + 1)
    omega
  · show lo + (nextNat e).1 % (hi - lo + 1) ≤ hi
    omega

theorem insertCmp_perm (r : Shuffler α) (a : α) :
    ∀ l : List α, List.Perm (insertCmp r a l) (a :: l)
  | [] => List.Perm.refl _
  | b :: bs => by
    simp only [insertCmp]
    by_cases hr : r a b
    · simp [hr]
    · simp only [hr, if_neg]
      exact ((insertCmp_perm r a bs).cons b).trans (List.Perm.swap a b bs)

theorem sortCmp_perm (r : Shuffler α) :
    ∀ l : List α, List.Perm (sortCmp r l) l
  | [] => List.Perm.refl _
  | a :: as =>
    (insertCmp_perm r a (sortCmp r as)).trans ((sortCmp_perm r as).cons a)

theorem shuffleArrayFn_perm (r : Shuffler α) (l : List α) :
    List.Perm (shuffleArrayFn r l) l :=
  sortCmp_perm r l

theorem length_shuffleArrayFn (r : Shuffler α) (l : List α) :
    (shuffleArrayFn r l).length = l.length :=
  (shuffleArrayFn_perm r l).length_eq

theorem length_mapIdxFrom (f : Nat → α → β) :
    ∀ (i : Nat) (l : List α), (mapIdxFrom f i l).length = l.length
  | _, [] => rfl
  | i, _ :: as => by
    simp [mapIdxFrom, length_mapIdxFrom f (i + 1) as]

theorem map_mapIdxFrom (f : Nat → α → β) (g : β → γ) (g0 : α → γ)
    (h : ∀ i a, g (f i a) = g0 a) :
    ∀ (i : Nat) (l : List α), (mapIdxFrom f i l).map g = l.map g0
  | _, [] => rfl
  | i, a :: as => by
    simp [mapIdxFrom, h, map_mapIdxFrom f g g0 h (i + 1) as]

theorem map_mapIdxFrom_idx (f : Nat → α → β) (g : β → γ) (g0 : Nat → γ)
    (h : ∀ i a, g (f i a) = g0 i) :
    ∀ (i : Nat) (l : List α), (mapIdxFrom f i l).map g = idxList g0 i l.length
  | _, [] => rfl
  | i, a :: as => by
    simp [mapIdxFrom, idxList, h, map_mapIdxFrom_idx f g g0 h (i + 1) as]

theorem countP_mapIdxFrom (f : Nat → α → β) (p : β → Bool) (p0 : α → Bool)
    (h : ∀ i a, p (f i a) = p0 a) :
    ∀ (i : Nat) (l : List α), (mapIdxFrom f i l).countP p = l.countP p0
  | _, [] => rfl
  | i, a :: as => by
    simp [mapIdxFrom, List.countP_cons, h, countP_mapIdxFrom f p p0 h (i + 1) as]

theorem mem_mapIdxFrom (f : Nat → α → β) :
    ∀ (i : Nat) (l : List α) (b : β),
      b ∈ mapIdxFrom f i l → ∃ j a, a ∈ l ∧ b = f j a
  | _, [], b, hb => by simp [mapIdxFrom] at hb
  | i, a :: as, b, hb => by
    simp only [mapIdxFrom, List.mem_cons] at hb
    rcases hb with hb | hb
    · exact ⟨i, a, by simp, hb⟩
    · obtain ⟨j, a2, ha2, hba⟩ := mem_mapIdxFrom f (i + 1) as b hb
      exact ⟨j, a2, by simp [ha2], hba⟩

/-- Counting a key in a duplicate-free key list: exactly one hit. -/
theorem countP_beq_eq_one_of_nodup_mem {key : String} {keys : List String}
    (hnd : keys.Nodup) (hmem : key ∈ keys) :
    keys.countP (fun x => key == x) = 1 := by
  have hc : keys.countP (fun x => key == x) = keys.count key := by
    refine List.countP_congr ?_
    intro a _
    by_cases hk : key = a
    · subst hk
      simp [List.count]
    · simp [List.count, hk, Ne.symm hk]
  rw [hc]
  exact List.count_eq_one_of_mem hnd hmem

/-! Claim C2: the arithmetic generator. -/

theorem congso_drawNumbers_length :
    ∀ (n : Nat) (e : Entropy), (CongSo.drawNumbers n e).1.length = n
  | 0, _ => rfl
  | n + 1, e => by
    simp [CongSo.drawNumbers, congso_drawNumbers_length n]

theorem congso_drawNumbers_le :
    ∀ (n : Nat) (e : Entropy), ∀ x ∈ (CongSo.drawNumbers n e).1, x ≤ 9
  | 0, _ => by simp [CongSo.drawNumbers]
  | n + 1, e => by
    simp only [CongSo.drawNumbers, List.mem_cons]
    rintro x (rfl | hx)
    · exact (getRandomInt_bounds 0 9 e (by omega)).2
    · exact congso_drawNumbers_le n _ x hx

theorem congso_genProblem_spec (i : Nat) (e : Entropy) :
    (CongSo.genProblem i e).1.id = i ∧
    2 ≤ (CongSo.genProblem i e).1.numbers.length ∧
    (CongSo.genProblem i e).1.numbers.length ≤ 3 ∧
    (∀ x ∈ (CongSo.genProblem i e).1.numbers, x ≤ 9) ∧
    (CongSo.genProblem i e).1.answer = (CongSo.genProblem i e).1.numbers.sum := by
  have hb := getRandomInt_bounds 2 3 e (by omega)
  refine ⟨rfl, ?_, ?_, ?_, ?_⟩
  · show 2 ≤ (CongSo.drawNumbers (getRandomInt 2 3 e).1 (getRandomInt 2 3 e).2).1.length
    rw [congso_drawNumbers_length]
    exact hb.1
  · show (CongSo.drawNumbers (getRandomInt 2 3 e).1 (getRandomInt 2 3 e).2).1.length ≤ 3
    rw [congso_drawNumbers_length]
    exact hb.2
  · exact congso_drawNumbers_le _ _
  · show (CongSo.drawNumbers (getRandomInt 2 3 e).1 (getRandomInt 2 3 e).2).1.foldl (· + ·) 0 = _
    exact List.sum_eq_foldl.symm

theorem congso_genProblemsAux_length :
    ∀ (n i : Nat) (e : Entropy), (CongSo.genProblemsAux n i e).1.length = n
  | 0, _, _ => rfl
  | n + 1, i, e => by
    simp [CongSo.genProblemsAux, congso_genProblemsAux_length n]

theorem congso_genProblemsAux_mem :
    ∀ (n i : Nat) (e : Entropy), ∀ p ∈ (CongSo.genProblemsAux n i e).1,
      ∃ (j : Nat) (e2 : Entropy), p = (CongSo.genProblem j e2).1
  | 0, _, _ => by simp [CongSo.genProblemsAux]
  | n + 1, i, e => by
    simp only [CongSo.genProblemsAux, List.mem_cons]
    rintro p (rfl | hp)
    · exact ⟨i, e, rfl⟩
    · exact congso_genProblemsAux_mem n (i + 1) _ p hp

/-- Claim C2: generateProblems (src/CongSo.tsx lines 17-26) always produces
exactly 6 problems; every problem has 2 or 3 operands, each operand lies in
[0, 9], and the stored answer equals the exact sum of the operands. -/
theorem claimC2_arithmetic_generator (e : Entropy) :
    (CongSo.generateProblems e).length = 6 ∧
    ∀ p ∈ CongSo.generateProblems e,
      (2 ≤ p.numbers.length ∧ p.numbers.length ≤ 3) ∧
      (∀ n ∈ p.numbers, 0 ≤ n ∧ n ≤ 9) ∧
      p.answer = p.numbers.sum := by
  refine ⟨congso_genProblemsAux_length 6 0 e, ?_⟩
  intro p hp
  obtain ⟨j, e2, rfl⟩ := congso_genProblemsAux_mem 6 0 e p hp
  obtain ⟨-, h2, h3, h9, hsum⟩ := congso_genProblem_spec j e2
  exact ⟨⟨h2, h3⟩, fun n hn => ⟨Nat.zero_le n, h9 n hn⟩, hsum⟩

/-- Claim C2 instance: the properties evaluated on a sample entropy. -/
theorem claimC2_witness :
    (CongSo.generateProblems entSample).length = 6 ∧
    2 ≤ ((CongSo.generateProblems entSample).getD 0 default).numbers.length := by
  have h := claimC2_arithmetic_generator entSample
  refine ⟨h.1, ?_⟩
  have hm : (CongSo.generateProblems entSample).getD 0 default ∈
      CongSo.generateProblems entSample := by decide
  exact ((h.2 _ hm).1).1

/-! Claim C4: the local symbol-math legend. -/

/-- Claim C4: the legend of generateGame (src/CongSo.tsx lines 130-151)
assigns the 9 fixed icons a permutation of 1..9: the key column is exactly
the fixed icon list (no icon repeats), and the value column is a
permutation of 1..9 (every number used exactly once, no repeats). -/
theorem claimC4_legend_bijection (r : Shuffler Nat) (e : Entropy) :
    ((MaHoaLocal.generateGame r e).1.map Prod.fst = MaHoaLocal.iconKeys) ∧
    MaHoaLocal.iconKeys.Nodup ∧
    List.Perm ((MaHoaLocal.generateGame r e).1.map Prod.snd)
      MaHoaLocal.rangeOneNine ∧
    ((MaHoaLocal.generateGame r e).1.map Prod.snd).Nodup := by
  have hleg : (MaHoaLocal.generateGame r e).1 =
      MaHoaLocal.iconKeys.zip (shuffleArrayFn r MaHoaLocal.rangeOneNine) := rfl
  have hlen : (shuffleArrayFn r MaHoaLocal.rangeOneNine).length = 9 :=
    length_shuffleArrayFn r _
  have hperm := shuffleArrayFn_perm r MaHoaLocal.rangeOneNine
  have hsnd : (MaHoaLocal.generateGame r e).1.map Prod.snd =
      shuffleArrayFn r MaHoaLocal.rangeOneNine := by
    rw [hleg]
    exact List.map_snd_zip _ _ (by rw [hlen]; decide)
  refine ⟨?_, by decide, ?_, ?_⟩
  · rw [hleg]
    exact List.map_fst_zip _ _ (by rw [hlen]; decide)
  · rw [hsnd]
    exact hperm
  · rw [hsnd]
    exact hperm.nodup_iff.mpr (by decide)

/-! Claim C8: the export document layout. -/

/-- Claim C8: for a rasterized bitmap of w by h pixels and margin 40, the
document page measures (w + 2*40) by (h + 2*40), the image sits at
(40, 40) with its original dimensions, orientation is landscape exactly
when the margined width exceeds the margined height, and the file name is a
constant of the game type. -/
theorem claimC8_export_layout (g : ExportPdf.GameKind) (w h : Nat) :
    (ExportPdf.exportLayout g w h).pageW = w + 2 * 40 ∧
    (ExportPdf.exportLayout g w h).pageH = h + 2 * 40 ∧
    (ExportPdf.exportLayout g w h).imgX = 40 ∧
    (ExportPdf.exportLayout g w h).imgY = 40 ∧
    (ExportPdf.exportLayout g w h).imgW = w ∧
    (ExportPdf.exportLayout g w h).imgH = h ∧
    ((ExportPdf.exportLayout g w h).orientation =
        ExportPdf.PdfOrientation.landscape ↔ w + 2 * 40 > h + 2 * 40) ∧
    ∀ w2 h2 : Nat,
      (ExportPdf.exportLayout g w2 h2).fileName =
        (ExportPdf.exportLayout g w h).fileName := by
  refine ⟨?_, ?_, rfl, rfl, rfl, rfl, ?_, fun _ _ => rfl⟩
  · show w + 40 * 2 = w + 2 * 40
    omega
  · show h + 40 * 2 = h + 2 * 40
    omega
  · have hor : (ExportPdf.exportLayout g w h).orientation =
        if w + 40 * 2 > h + 40 * 2 then ExportPdf.PdfOrientation.landscape
        else ExportPdf.PdfOrientation.portrait := rfl
    rw [hor]
    split_ifs with hc
    · simp only [true_iff]
      omega
    · constructor
      · intro habs
        exact absurd habs (by simp)
      · intro habs
        omega

/-! Claim C9: the off-screen node during export. -/

/-- Claim C9 counterexample: when rasterization fails, the execution of
exportPdf leaves the off-screen print container attached to the document
(the promise chain has no rejection handler), so the claim that no
execution leaves the node attached is false. -/
theorem claimC9_counterexample :
    (ExportPdf.exportPdf ExportPdf.GameKind.congSo true
      (ExportPdf.RasterOutcome.failed "html2canvas rejected")).offscreenAttached
      = true ∧
    (ExportPdf.exportPdf ExportPdf.GameKind.congSo true
      (ExportPdf.RasterOutcome.failed "html2canvas rejected")).saved = none := by
  exact ⟨rfl, rfl⟩

/-- Claim C9 (amended): the off-screen duplicate is unmounted immediately
when rasterization succeeds, before the document is emitted; when
rasterization fails, no handler runs, so the node stays attached and no
document is produced; with no mounted surface nothing is attached and
nothing is produced. -/
theorem claimC9_amended_offscreen_node (g : ExportPdf.GameKind)
    (w h : Nat) (m m2 : String) :
    (ExportPdf.exportPdf g true (ExportPdf.RasterOutcome.ok w h)).offscreenAttached
      = false ∧
    (ExportPdf.exportPdf g true (ExportPdf.RasterOutcome.ok w h)).saved
      = some (ExportPdf.exportLayout g w h) ∧
    (ExportPdf.exportPdf g true (ExportPdf.RasterOutcome.failed m)).offscreenAttached
      = true ∧
    (ExportPdf.exportPdf g true (ExportPdf.RasterOutcome.failed m)).saved = none ∧
    (ExportPdf.exportPdf g false (ExportPdf.RasterOutcome.ok w h)).offscreenAttached
      = false ∧
    (ExportPdf.exportPdf g false (ExportPdf.RasterOutcome.ok w h)).saved = none ∧
    (ExportPdf.exportPdf g false (ExportPdf.RasterOutcome.failed m2)).offscreenAttached
      = false ∧
    (ExportPdf.exportPdf g false (ExportPdf.RasterOutcome.failed m2)).saved = none :=
  ⟨rfl, rfl, rfl, rfl, rfl, rfl, rfl, rfl⟩

/-! Claim C10: shuffleArray is a non-mutating permutation. -/

/-- Claim C10: shuffleArray (src/unnamed/part_000) returns an array holding
exactly the elements of its input with the same multiplicities (its value
is the comparison sort of the input), and it never writes any existing
array of the store: the input array is not mutated. -/
theorem claimC10_shuffleArray_perm (r : Shuffler α) (s : Store α) (i : Nat) :
    List.Perm ((shuffleArray r s i).1.read (shuffleArray r s i).2) (s.read i) ∧
    (shuffleArray r s i).1.read (shuffleArray r s i).2
      = shuffleArrayFn r (s.read i) ∧
    ∀ j, j < s.arrays.length → (shuffleArray r s i).1.read j = s.read j := by
  have hcopy : (s.arrays ++ [s.read i]).getD s.arrays.length [] = s.read i := by
    simp [List.getD_eq_getElem?_getD, List.getElem?_concat_length]
  have hval : (shuffleArray r s i).1.read (shuffleArray r s i).2
      = shuffleArrayFn r (s.read i) := by
    show ((s.arrays ++ [s.read i]).set s.arrays.length
        (sortCmp r ((s.arrays ++ [s.read i]).getD s.arrays.length []))).getD
        s.arrays.length [] = _
    rw [hcopy]
    simp [List.getD_eq_getElem?_getD, List.getElem?_set_self
      (show s.arrays.length < (s.arrays ++ [s.read i]).length by simp),
      shuffleArrayFn]
  refine ⟨?_, hval, ?_⟩
  · rw [hval]
    exact shuffleArrayFn_perm r _
  · intro j hj
    show ((s.arrays ++ [s.read i]).set s.arrays.length
        (sortCmp r ((s.arrays ++ [s.read i]).getD s.arrays.length []))).getD j []
        = s.arrays.getD j []
    rw [List.getD_eq_getElem?_getD, List.getElem?_set_ne (by omega),
      List.getElem?_append_left hj, List.getD_eq_getElem?_getD]

/-! Claim C7: validation-on-connect pairing. -/

/-- Claim C7: in the validation-on-connect pairing games
(src/Games/NoiSo.tsx lines 215-222, src/unnamed/part_007 lines 616-623),
clicking a right item while a left item is selected records the connection
exactly when the match-keys agree, clears the selection in either case, and
a mismatch changes nothing else and raises no error. -/
theorem claimC7_validation_on_connect
    (st : NoiSo.NSState) (l : NoiSo.LeftItem) (item : NoiSo.RightItem)
    (h : st.selectedLeft = some l)
    (stB : NoiBong.NBState) (lb itemB : NoiBong.BongItem)
    (hB : stB.selectedLeft = some lb) :
    ((NoiSo.handleRightClick st item).selectedLeft = none ∧
     (l.count = item.count →
       (NoiSo.handleRightClick st item).connections
         = setKey st.connections l.id item.id) ∧
     (l.count ≠ item.count →
       (NoiSo.handleRightClick st item).connections = st.connections) ∧
     (NoiSo.handleRightClick st item).error = st.error ∧
     (NoiSo.handleRightClick st item).leftItems = st.leftItems ∧
     (NoiSo.handleRightClick st item).rightItems = st.rightItems) ∧
    ((NoiBong.handleRightClick stB itemB).selectedLeft = none ∧
     (lb.iconId = itemB.iconId →
       (NoiBong.handleRightClick stB itemB).connections
         = setKey stB.connections lb.id itemB.id) ∧
     (lb.iconId ≠ itemB.iconId →
       (NoiBong.handleRightClick stB itemB).connections = stB.connections)) := by
  have hred : NoiSo.handleRightClick st item =
      { st with
        connections :=
          if l.count == item.count then setKey st.connections l.id item.id
          else st.connections,
        selectedLeft := none } := by
    simp only [NoiSo.handleRightClick, h]
  have hredB : NoiBong.handleRightClick stB itemB =
      { stB with
        connections :=
          if lb.iconId == itemB.iconId then setKey stB.connections lb.id itemB.id
          else stB.connections,
        selectedLeft := none } := by
    simp only [NoiBong.handleRightClick, hB]
  rw [hred, hredB]
  refine ⟨⟨rfl, ?_, ?_, rfl, rfl, rfl⟩, rfl, ?_, ?_⟩
  · intro hc
    show (if l.count == item.count then _ else _) = _
    simp [hc]
  · intro hc
    show (if l.count == item.count then _ else _) = _
    simp [hc]
  · intro hc
    show (if lb.iconId == itemB.iconId then _ else _) = _
    simp [hc]
  · intro hc
    show (if lb.iconId == itemB.iconId then _ else _) = _
    simp [hc]

/-- Claim C7 instance: a matching click records the edge, a mismatched
click records nothing, and both clear the selection. -/
theorem claimC7_witness :
    (NoiSo.handleRightClick selNSState sampleNSRight).selectedLeft = none ∧
    (NoiSo.handleRightClick selNSState sampleNSRight).connections
      = [("l-0", "r-1")] ∧
    (NoiSo.handleRightClick selNSState sampleNSRightBad).connections = [] ∧
    (NoiBong.handleRightClick selNBState sampleNBRight).connections = [] ∧
    (NoiBong.handleRightClick selNBState sampleNBRight).selectedLeft = none := by
  have h1 := claimC7_validation_on_connect selNSState sampleNSLeft sampleNSRight
    rfl selNBState sampleNBLeft sampleNBRight rfl
  have h2 := claimC7_validation_on_connect selNSState sampleNSLeft
    sampleNSRightBad rfl selNBState sampleNBLeft sampleNBRight rfl
  refine ⟨h1.1.1, ?_, ?_, ?_, h1.2.1⟩
  · rw [h1.1.2.1 (by decide)]
    decide
  · rw [h2.1.2.2.1 (by decide)]
    rfl
  · rw [h1.2.2.2 (by decide)]
    rfl

/-! Claim C1: matching-game instances with 5 base pairs. -/

theorem npt_genBasePairs_length :
    ∀ (n : Nat) (e : Entropy), (NoiPhepTinh.genBasePairs n e).1.length = n
  | 0, _ => rfl
  | n + 1, e => by
    simp [NoiPhepTinh.genBasePairs, npt_genBasePairs_length n]

/-- Claim C1 counterexample: the entropy entDupSums makes the equation
pairing generator emit the base pairs 0 + 3 and 1 + 2, both with match-key
3; the left item l-0 then matches two right items, refuting "exactly one
right item matches each left item" and "no left item matches more than one
right item". -/
theorem claimC1_counterexample :
    ({ id := "l-0", content := "0 + 3", matchId := "3" } : NoiPhepTinh.MatchItem)
      ∈ (NoiPhepTinh.generateItems revCmp entDupSums).1 ∧
    ((NoiPhepTinh.generateItems revCmp entDupSums).2.countP
      (fun ri => NoiPhepTinh.matchesLR
        { id := "l-0", content := "0 + 3", matchId := "3" } ri)) = 2 := by
  constructor <;> decide

/-- Claim C1 (amended): for every instance of the two pairing generators
with 5 base pairs, the left column has the 5 distinct identifiers l-0..l-4
and the right column is a permutation of the correct-answer values of the
left items; in the icon variant (whose 5 match-keys are always distinct)
exactly one right item matches each left item; in the equation variant this
holds provided the 5 generated sums are pairwise distinct. -/
theorem claimC1_amended_matching_instance (r : Shuffler NoiPhepTinh.MatchItem)
    (e : Entropy) (r1 r2 : Shuffler String) :
    ((NoiPhepTinh.generateItems r e).1.map NoiPhepTinh.MatchItem.id
        = ["l-0", "l-1", "l-2", "l-3", "l-4"]) ∧
    List.Perm
      ((NoiPhepTinh.generateItems r e).2.map NoiPhepTinh.MatchItem.content)
      ((NoiPhepTinh.generateItems r e).1.map NoiPhepTinh.MatchItem.matchId) ∧
    (((NoiPhepTinh.generateItems r e).1.map NoiPhepTinh.MatchItem.matchId).Nodup →
      ∀ l ∈ (NoiPhepTinh.generateItems r e).1,
        (NoiPhepTinh.generateItems r e).2.countP
          (fun ri => NoiPhepTinh.matchesLR l ri) = 1) ∧
    ((NoiBong.generateItems r1 r2).1.map NoiBong.BongItem.id
        = ["l-0", "l-1", "l-2", "l-3", "l-4"]) ∧
    List.Perm ((NoiBong.generateItems r1 r2).2.map NoiBong.BongItem.iconId)
      ((NoiBong.generateItems r1 r2).1.map NoiBong.BongItem.iconId) ∧
    (∀ lb ∈ (NoiBong.generateItems r1 r2).1,
      (NoiBong.generateItems r1 r2).2.countP
        (fun ri => NoiBong.matchesNB lb ri) = 1) := by
  have hbaseLen := npt_genBasePairs_length 5 e
  have hL : (NoiPhepTinh.generateItems r e).1 = mapIdxFrom
      (fun i (b : NoiPhepTinh.MatchBase) =>
        NoiPhepTinh.MatchItem.mk ("l-" ++ natStr i) b.content b.matchId)
      0 (NoiPhepTinh.genBasePairs 5 e).1 := rfl
  have hR : (NoiPhepTinh.generateItems r e).2 = shuffleArrayFn r (mapIdxFrom
      (fun i (b : NoiPhepTinh.MatchBase) =>
        NoiPhepTinh.MatchItem.mk ("r-" ++ natStr i) b.matchId b.content)
      0 (NoiPhepTinh.genBasePairs 5 e).1) := rfl
  have hmid : (NoiPhepTinh.generateItems r e).1.map NoiPhepTinh.MatchItem.matchId
      = (NoiPhepTinh.genBasePairs 5 e).1.map NoiPhepTinh.MatchBase.matchId := by
    rw [hL]
    exact map_mapIdxFrom _ NoiPhepTinh.MatchItem.matchId
      NoiPhepTinh.MatchBase.matchId (fun _ _ => rfl) 0 _
  have hRperm := shuffleArrayFn_perm r (mapIdxFrom
      (fun i (b : NoiPhepTinh.MatchBase) =>
        NoiPhepTinh.MatchItem.mk ("r-" ++ natStr i) b.matchId b.content)
      0 (NoiPhepTinh.genBasePairs 5 e).1)
  have hchosen : ((shuffleArrayFn r1 NoiBong.bongIconKeys).take 5)
      = shuffleArrayFn r1 NoiBong.bongIconKeys := by
    apply List.take_of_length_le
    rw [length_shuffleArrayFn]
    decide
  have hchperm : List.Perm (shuffleArrayFn r1 NoiBong.bongIconKeys)
      NoiBong.bongIconKeys := shuffleArrayFn_perm r1 _
  have hchnd : (shuffleArrayFn r1 NoiBong.bongIconKeys).Nodup :=
    hchperm.nodup_iff.mpr (by decide)
  have hchlen : (shuffleArrayFn r1 NoiBong.bongIconKeys).length = 5 := by
    rw [length_shuffleArrayFn]
    rfl
  have hBL : (NoiBong.generateItems r1 r2).1 = mapIdxFrom
      (fun i (s : String) => NoiBong.BongItem.mk ("l-" ++ natStr i) s) 0
      (shuffleArrayFn r1 NoiBong.bongIconKeys) := by
    show mapIdxFrom _ 0 ((shuffleArrayFn r1 NoiBong.bongIconKeys).take 5) = _
    rw [hchosen]
  have hBR : (NoiBong.generateItems r1 r2).2 = mapIdxFrom
      (fun i (s : String) => NoiBong.BongItem.mk ("r-" ++ natStr i) s) 0
      (shuffleArrayFn r2 (shuffleArrayFn r1 NoiBong.bongIconKeys)) := by
    show mapIdxFrom _ 0
      (shuffleArrayFn r2 ((shuffleArrayFn r1 NoiBong.bongIconKeys).take 5)) = _
    rw [hchosen]
  refine ⟨?_, ?_, ?_, ?_, ?_, ?_⟩
  · have hid1 : (mapIdxFrom
        (fun i (b : NoiPhepTinh.MatchBase) =>
          NoiPhepTinh.MatchItem.mk ("l-" ++ natStr i) b.content b.matchId)
        0 (NoiPhepTinh.genBasePairs 5 e).1).map NoiPhepTinh.MatchItem.id
        = idxList (fun i => "l-" ++ natStr i) 0
            (NoiPhepTinh.genBasePairs 5 e).1.length :=
      map_mapIdxFrom_idx
        (fun i (b : NoiPhepTinh.MatchBase) =>
          NoiPhepTinh.MatchItem.mk ("l-" ++ natStr i) b.content b.matchId)
        NoiPhepTinh.MatchItem.id (fun i => "l-" ++ natStr i)
        (fun _ _ => rfl) 0 _
    rw [hL, hid1, hbaseLen]
    decide
  · have h1 : (mapIdxFrom
        (fun i (b : NoiPhepTinh.MatchBase) =>
          NoiPhepTinh.MatchItem.mk ("r-" ++ natStr i) b.matchId b.content)
        0 (NoiPhepTinh.genBasePairs 5 e).1).map NoiPhepTinh.MatchItem.content
        = (NoiPhepTinh.genBasePairs 5 e).1.map NoiPhepTinh.MatchBase.matchId :=
      map_mapIdxFrom _ NoiPhepTinh.MatchItem.content
        NoiPhepTinh.MatchBase.matchId (fun _ _ => rfl) 0 _
    have h2 := hRperm.map NoiPhepTinh.MatchItem.content
    rw [h1] at h2
    rw [hmid, hR]
    exact h2
  · intro hnd l hl
    rw [hmid] at hnd
    rw [hL] at hl
    obtain ⟨j, a, ha, rfl⟩ := mem_mapIdxFrom _ 0 _ l hl
    have hcp : (mapIdxFrom
        (fun i (b : NoiPhepTinh.MatchBase) =>
          NoiPhepTinh.MatchItem.mk ("r-" ++ natStr i) b.matchId b.content)
        0 (NoiPhepTinh.genBasePairs 5 e).1).countP
        (fun ri => NoiPhepTinh.matchesLR
          (NoiPhepTinh.MatchItem.mk ("l-" ++ natStr j) a.content a.matchId) ri)
        = (NoiPhepTinh.genBasePairs 5 e).1.countP
            (fun b => a.matchId == b.matchId) :=
      countP_mapIdxFrom
        (fun i (b : NoiPhepTinh.MatchBase) =>
          NoiPhepTinh.MatchItem.mk ("r-" ++ natStr i) b.matchId b.content)
        (fun ri => NoiPhepTinh.matchesLR
          (NoiPhepTinh.MatchItem.mk ("l-" ++ natStr j) a.content a.matchId) ri)
        (fun b => a.matchId == b.matchId) (fun _ _ => rfl) 0 _
    rw [hR, hRperm.countP_eq, hcp]
    have hcm : (NoiPhepTinh.genBasePairs 5 e).1.countP
        (fun b => a.matchId == b.matchId)
        = ((NoiPhepTinh.genBasePairs 5 e).1.map
            NoiPhepTinh.MatchBase.matchId).countP (fun x => a.matchId == x) :=
      (List.countP_map _ _ _).symm
    rw [hcm]
    exact countP_beq_eq_one_of_nodup_mem hnd (List.mem_map_of_mem _ ha)
  · have hid2 : (mapIdxFrom
        (fun i (s : String) => NoiBong.BongItem.mk ("l-" ++ natStr i) s) 0
        (shuffleArrayFn r1 NoiBong.bongIconKeys)).map NoiBong.BongItem.id
        = idxList (fun i => "l-" ++ natStr i) 0
            (shuffleArrayFn r1 NoiBong.bongIconKeys).length :=
      map_mapIdxFrom_idx
        (fun i (s : String) => NoiBong.BongItem.mk ("l-" ++ natStr i) s)
        NoiBong.BongItem.id (fun i => "l-" ++ natStr i) (fun _ _ => rfl) 0 _
    rw [hBL, hid2, hchlen]
    decide
  · have hl1 : (mapIdxFrom
        (fun i (s : String) => NoiBong.BongItem.mk ("l-" ++ natStr i) s) 0
        (shuffleArrayFn r1 NoiBong.bongIconKeys)).map NoiBong.BongItem.iconId
        = (shuffleArrayFn r1 NoiBong.bongIconKeys).map (fun s => s) :=
      map_mapIdxFrom _ NoiBong.BongItem.iconId (fun s => s) (fun _ _ => rfl) 0 _
    have hr1 : (mapIdxFrom
        (fun i (s : String) => NoiBong.BongItem.mk ("r-" ++ natStr i) s) 0
        (shuffleArrayFn r2 (shuffleArrayFn r1 NoiBong.bongIconKeys))).map
          NoiBong.BongItem.iconId
        = (shuffleArrayFn r2 (shuffleArrayFn r1 NoiBong.bongIconKeys)).map
            (fun s => s) :=
      map_mapIdxFrom _ NoiBong.BongItem.iconId (fun s => s) (fun _ _ => rfl) 0 _
    rw [hBL, hBR, hl1, hr1, List.map_id', List.map_id']
    exact shuffleArrayFn_perm r2 _
  · intro lb hlb
    rw [hBL] at hlb
    obtain ⟨j, a, ha, rfl⟩ := mem_mapIdxFrom _ 0 _ lb hlb
    have hcp2 : (mapIdxFrom
        (fun i (s : String) => NoiBong.BongItem.mk ("r-" ++ natStr i) s) 0
        (shuffleArrayFn r2 (shuffleArrayFn r1 NoiBong.bongIconKeys))).countP
        (fun ri => NoiBong.matchesNB
          (NoiBong.BongItem.mk ("l-" ++ natStr j) a) ri)
        = (shuffleArrayFn r2 (shuffleArrayFn r1 NoiBong.bongIconKeys)).countP
            (fun s => a == s) :=
      countP_mapIdxFrom
        (fun i (s : String) => NoiBong.BongItem.mk ("r-" ++ natStr i) s)
        (fun ri => NoiBong.matchesNB
          (NoiBong.BongItem.mk ("l-" ++ natStr j) a) ri)
        (fun s => a == s) (fun _ _ => rfl) 0 _
    rw [hBR, hcp2,
      (shuffleArrayFn_perm r2 (shuffleArrayFn r1 NoiBong.bongIconKeys)).countP_eq]
    exact countP_beq_eq_one_of_nodup_mem hchnd ha

/-- Claim C1 instance: with distinct sums 1..5 exactly one right item
matches the first left item of each variant. -/
theorem claimC1_witness :
    ((NoiPhepTinh.generateItems revCmp entDistinctSums).2.countP
      (fun ri => NoiPhepTinh.matchesLR
        { id := "l-0", content := "0 + 1", matchId := "1" } ri)) = 1 ∧
    ((NoiBong.generateItems idCmp revCmp).2.countP
      (fun ri => NoiBong.matchesNB { id := "l-0", iconId := "leaf" } ri)) = 1 := by
  have h := claimC1_amended_matching_instance revCmp entDistinctSums idCmp revCmp
  exact ⟨h.2.2.1 (by decide) _ (by decide), h.2.2.2.2.2 _ (by decide)⟩

/-! Claim C3: maze replay. -/

theorem mecung_parse_opString (a : Bool) (k : Nat) (h1 : 1 ≤ k) (h9 : k ≤ 9) :
    MeCung.parseOp (MeCung.opString a k) = some (a, k) := by
  interval_cases k <;> cases a <;> decide

theorem mecung_mazeStep_nonneg (v : Int) (a : Bool) (k : Nat) (hv : 0 ≤ v) :
    0 ≤ MeCung.mazeStep v a k := by
  unfold MeCung.mazeStep
  split
  · positivity
  · exact le_max_left 0 _

theorem mecung_genMazeSteps_spec (layout : List (Nat × Nat)) :
    ∀ (prev : MeCung.MazeNode) (i : Nat) (e : Entropy), 0 ≤ prev.value →
      (MeCung.replayOps prev.value
          ((MeCung.genMazeSteps prev i layout e).1.2.map MeCung.MazeConnection.op)
        = some ((MeCung.genMazeSteps prev i layout e).1.1.map MeCung.MazeNode.value)) ∧
      (∀ n ∈ (MeCung.genMazeSteps prev i layout e).1.1, 0 ≤ n.value) ∧
      (∀ c ∈ (MeCung.genMazeSteps prev i layout e).1.2,
        ∃ a k, MeCung.parseOp c.op = some (a, k) ∧ 1 ≤ k ∧ k ≤ 9) := by
  induction layout with
  | nil =>
    intro prev i e hv
    refine ⟨rfl, ?_, ?_⟩ <;> simp [MeCung.genMazeSteps]
  | cons pos rest ih =>
    intro prev i e hv
    have hkb := getRandomInt_bounds 1 9 (randBool e).2 (by omega)
    have hnode : 0 ≤ MeCung.mazeStep prev.value (randBool e).1
        (getRandomInt 1 9 (randBool e).2).1 :=
      mecung_mazeStep_nonneg _ _ _ hv
    obtain ⟨ihr, ihn, ihc⟩ := ih
      { id := i, value := MeCung.mazeStep prev.value (randBool e).1
          (getRandomInt 1 9 (randBool e).2).1,
        isInput := !rest.isEmpty, pos := pos }
      (i + 1) (getRandomInt 1 9 (randBool e).2).2 hnode
    have hparse := mecung_parse_opString (randBool e).1
      (getRandomInt 1 9 (randBool e).2).1 hkb.1 hkb.2
    refine ⟨?_, ?_, ?_⟩
    · show MeCung.replayOps prev.value
        (MeCung.opString (randBool e).1 (getRandomInt 1 9 (randBool e).2).1 :: _)
        = _
      rw [MeCung.replayOps, hparse]
      simp only []
      rw [ihr]
      rfl
    · intro n hn
      rcases List.mem_cons.mp hn with rfl | hn2
      · exact hnode
      · exact ihn n hn2
    · intro c hc
      rcases List.mem_cons.mp hc with rfl | hc2
      · exact ⟨(randBool e).1, (getRandomInt 1 9 (randBool e).2).1, hparse,
          hkb.1, hkb.2⟩
      · exact ihc c hc2

/-- Claim C3: for every maze generation (src/unnamed/part_005 lines 27-83),
replaying the recorded operation strings (each parsing as +k or -k with
k in [1, 9], subtraction clamped at 0) from the first node's value
reproduces the remaining recorded node values exactly, and no recorded
value is negative. -/
theorem claimC3_maze_replay (e : Entropy) :
    (MeCung.generateMaze e).1 ≠ [] ∧
    MeCung.replayOps (((MeCung.generateMaze e).1.map MeCung.MazeNode.value).headI)
      ((MeCung.generateMaze e).2.map MeCung.MazeConnection.op)
      = some (((MeCung.generateMaze e).1.map MeCung.MazeNode.value).tail) ∧
    (∀ n ∈ (MeCung.generateMaze e).1, 0 ≤ n.value) ∧
    (∀ c ∈ (MeCung.generateMaze e).2,
      ∃ a k, MeCung.parseOp c.op = some (a, k) ∧ 1 ≤ k ∧ k ≤ 9) := by
  have hstart : (0 : Int) ≤ ((getRandomInt 5 15 (randBool e).2).1 : Int) := by
    positivity
  cases hc : (randBool e).1 with
  | false =>
    obtain ⟨hr, hn, hco⟩ := mecung_genMazeSteps_spec MeCung.simpleMazeLayout.tail
      { id := 0, value := ((getRandomInt 5 15 (randBool e).2).1 : Int),
        isInput := false, pos := (170, 20) } 1 (getRandomInt 5 15 (randBool e).2).2
      hstart
    have hgen : MeCung.generateMaze e =
        ({ id := 0, value := ((getRandomInt 5 15 (randBool e).2).1 : Int),
           isInput := false, pos := (170, 20) } ::
          (MeCung.genMazeSteps
            { id := 0, value := ((getRandomInt 5 15 (randBool e).2).1 : Int),
              isInput := false, pos := (170, 20) } 1
            MeCung.simpleMazeLayout.tail
            (getRandomInt 5 15 (randBool e).2).2).1.1,
         (MeCung.genMazeSteps
            { id := 0, value := ((getRandomInt 5 15 (randBool e).2).1 : Int),
              isInput := false, pos := (170, 20) } 1
            MeCung.simpleMazeLayout.tail
            (getRandomInt 5 15 (randBool e).2).2).1.2) := by
      simp only [MeCung.generateMaze, hc]
      rfl
    rw [hgen]
    refine ⟨by simp, ?_, ?_, hco⟩
    · simpa using hr
    · intro n hn2
      rcases List.mem_cons.mp hn2 with rfl | hn3
      · exact hstart
      · exact hn n hn3
  | true =>
    obtain ⟨hr, hn, hco⟩ := mecung_genMazeSteps_spec MeCung.complexMazeLayout.tail
      { id := 0, value := ((getRandomInt 5 15 (randBool e).2).1 : Int),
        isInput := false, pos := (20, 20) } 1 (getRandomInt 5 15 (randBool e).2).2
      hstart
    have hgen : MeCung.generateMaze e =
        ({ id := 0, value := ((getRandomInt 5 15 (randBool e).2).1 : Int),
           isInput := false, pos := (20, 20) } ::
          (MeCung.genMazeSteps
            { id := 0, value := ((getRandomInt 5 15 (randBool e).2).1 : Int),
              isInput := false, pos := (20, 20) } 1
            MeCung.complexMazeLayout.tail
            (getRandomInt 5 15 (randBool e).2).2).1.1,
         (MeCung.genMazeSteps
            { id := 0, value := ((getRandomInt 5 15 (randBool e).2).1 : Int),
              isInput := false, pos := (20, 20) } 1
            MeCung.complexMazeLayout.tail
            (getRandomInt 5 15 (randBool e).2).2).1.2) := by
      simp only [MeCung.generateMaze, hc]
      rfl
    rw [hgen]
    refine ⟨by simp, ?_, ?_, hco⟩
    · simpa using hr
    · intro n hn2
      rcases List.mem_cons.mp hn2 with rfl | hn3
      · exact hstart
      · exact hn n hn3

/-- Claim C3 instance: the replay property evaluated on a sample entropy. -/
theorem claimC3_witness :
    (MeCung.generateMaze entMaze).1 ≠ [] ∧
    MeCung.replayOps
      (((MeCung.generateMaze entMaze).1.map MeCung.MazeNode.value).headI)
      ((MeCung.generateMaze entMaze).2.map MeCung.MazeConnection.op)
      = some (((MeCung.generateMaze entMaze).1.map MeCung.MazeNode.value).tail) ∧
    0 ≤ ((MeCung.generateMaze entMaze).1.headI).value := by
  have h := claimC3_maze_replay entMaze
  refine ⟨h.1, h.2.1, h.2.2.1 _ ?_⟩
  decide

/-- Claim C10 instance: a concrete store and reference. -/
theorem claimC10_witness :
    ((shuffleArray (revCmp : Shuffler Nat) ⟨[[1, 2, 3]]⟩ 0).1.read
      (shuffleArray (revCmp : Shuffler Nat) ⟨[[1, 2, 3]]⟩ 0).2) = [3, 2, 1] ∧
    (shuffleArray (revCmp : Shuffler Nat) ⟨[[1, 2, 3]]⟩ 0).1.read 0 = [1, 2, 3] := by
  have h := claimC10_shuffleArray_perm (revCmp : Shuffler Nat) ⟨[[1, 2, 3]]⟩ 0
  refine ⟨by rw [h.2.1]; decide, ?_⟩
  rw [h.2.2 0 (by decide)]
  decide

/-! Claims C5 and C6: failure handling in the AI-assisted variants. -/

/-- What the catch branch of the number matching generateNew leaves behind:
loading cleared, error cleared again by loadDefaultData, connections reset,
and both columns built from a shuffled arrangement of the default payload. -/
theorem noiso_applyCatch_spec (rB : Shuffler NoiSo.PairItem)
    (rR : Shuffler NoiSo.RightItem) (s : NoiSo.NSState) (m : String) :
    (NoiSo.applyCatch rB rR s m).error = none ∧
    (NoiSo.applyCatch rB rR s m).isLoading = false ∧
    (NoiSo.applyCatch rB rR s m).connections = [] ∧
    (NoiSo.applyCatch rB rR s m).selectedLeft = none ∧
    List.Perm ((NoiSo.applyCatch rB rR s m).leftItems.map
        (fun l => (l.svg, l.count)))
      (NoiSo.defaultGameData.map (fun p => (p.svg, p.count))) ∧
    List.Perm ((NoiSo.applyCatch rB rR s m).rightItems.map NoiSo.RightItem.count)
      (NoiSo.defaultGameData.map NoiSo.PairItem.count) := by
  have hleft : (NoiSo.applyCatch rB rR s m).leftItems
      = mapIdxFrom NoiSo.mkLeft 0 (shuffleArrayFn rB NoiSo.defaultGameData) := rfl
  have hright : (NoiSo.applyCatch rB rR s m).rightItems
      = shuffleArrayFn rR
          (mapIdxFrom NoiSo.mkRight 0 (shuffleArrayFn rB NoiSo.defaultGameData)) :=
    rfl
  refine ⟨rfl, rfl, rfl, rfl, ?_, ?_⟩
  · rw [hleft, map_mapIdxFrom NoiSo.mkLeft (fun l => (l.svg, l.count))
      (fun p => (p.svg, p.count)) (fun _ _ => rfl) 0 _]
    exact (shuffleArrayFn_perm rB _).map _
  · rw [hright]
    have h1 := (shuffleArrayFn_perm rR
      (mapIdxFrom NoiSo.mkRight 0 (shuffleArrayFn rB NoiSo.defaultGameData))).map
      NoiSo.RightItem.count
    rw [map_mapIdxFrom NoiSo.mkRight NoiSo.RightItem.count NoiSo.PairItem.count
      (fun _ _ => rfl) 0 _] at h1
    exact h1.trans ((shuffleArrayFn_perm rB _).map _)

/-- Claim C5 counterexample: a transport failure in the grid coloring game
substitutes no fallback puzzle (the previous patterns stay, only an error
message is set), and in the emoji symbol-math game the rate-limit sub-kind
takes a different control-flow path from other failures: the rate-limit
message loads the default payload and clears the error, any other message
leaves the puzzle untouched with the error set. -/
theorem claimC5_counterexample :
    (ToTracNghiem.generateNew revCmp [RemoteOutcome.err "network down"]
      sampleTTState).patterns = [sampleTTRow] ∧
    (ToTracNghiem.generateNew revCmp [RemoteOutcome.err "network down"]
      sampleTTState).error = some "network down" ∧
    (EmojiMaHoa.generateGame (RemoteOutcome.err "boom") sampleEMState).legend
      = [] ∧
    (EmojiMaHoa.generateGame (RemoteOutcome.err "boom") sampleEMState).error
      = some "boom" ∧
    (EmojiMaHoa.generateGame (RemoteOutcome.err "429 quota") sampleEMState).legend
      = EmojiMaHoa.defaultGameData.iconMap ∧
    (EmojiMaHoa.generateGame (RemoteOutcome.err "429 quota") sampleEMState).error
      = none := by
  refine ⟨?_, ?_, ?_, ?_, ?_, ?_⟩ <;> decide

/-- Claim C5 (amended): no remote-generation failure propagates — each
variant's catch resolves it to a state with loading cleared — but the
variants differ: the number matching game resolves every failure to the
default payload (clearing the notice), the grid coloring game has no
fallback and keeps the previous puzzle with the error message set, and the
emoji symbol-math game loads its fallback only for the rate-limit sub-kind,
which therefore changes control flow, not just the message. -/
theorem claimC5_amended_failure_handling (rB : Shuffler NoiSo.PairItem)
    (rR : Shuffler NoiSo.RightItem) (m : String) (st : NoiSo.NSState)
    (hth : ¬(strTrim st.theme).data.isEmpty = true)
    (rT : Shuffler Char) (outs : List (RemoteOutcome (List Int)))
    (mT : String) (stT : ToTracNghiem.TTState)
    (hout : ToTracNghiem.collectAll outs = Except.error mT)
    (mE : String) (stE : EmojiMaHoa.EMState)
    (hthE : ¬(strTrim stE.theme).data.isEmpty = true) :
    (NoiSo.generateNew rB rR (RemoteOutcome.err m) st).isLoading = false ∧
    (NoiSo.generateNew rB rR (RemoteOutcome.err m) st).error = none ∧
    List.Perm ((NoiSo.generateNew rB rR (RemoteOutcome.err m) st).leftItems.map
        (fun l => (l.svg, l.count)))
      (NoiSo.defaultGameData.map (fun p => (p.svg, p.count))) ∧
    (ToTracNghiem.generateNew rT outs stT).isLoading = false ∧
    (ToTracNghiem.generateNew rT outs stT).patterns = stT.patterns ∧
    (ToTracNghiem.generateNew rT outs stT).error = some mT ∧
    (isRateLimitMsg mE = true →
      (EmojiMaHoa.generateGame (RemoteOutcome.err mE) stE).legend
          = EmojiMaHoa.defaultGameData.iconMap ∧
      (EmojiMaHoa.generateGame (RemoteOutcome.err mE) stE).error = none ∧
      (EmojiMaHoa.generateGame (RemoteOutcome.err mE) stE).isLoading = false) ∧
    (isRateLimitMsg mE = false →
      (EmojiMaHoa.generateGame (RemoteOutcome.err mE) stE).legend = stE.legend ∧
      (EmojiMaHoa.generateGame (RemoteOutcome.err mE) stE).error = some mE ∧
      (EmojiMaHoa.generateGame (RemoteOutcome.err mE) stE).isLoading = false) := by
  have hns : NoiSo.generateNew rB rR (RemoteOutcome.err m) st
      = NoiSo.applyCatch rB rR { st with isLoading := true, error := none } m := by
    simp only [NoiSo.generateNew]
    rw [if_neg hth]
  have hcatch := noiso_applyCatch_spec rB rR
    { st with isLoading := true, error := none } m
  have htt : ToTracNghiem.generateNew rT outs stT
      = { stT with
          patterns := stT.patterns, isLoading := false, error := some mT } := by
    simp only [ToTracNghiem.generateNew, hout]
  have hem : EmojiMaHoa.generateGame (RemoteOutcome.err mE) stE
      = EmojiMaHoa.applyCatch { stE with isLoading := true, error := none } mE := by
    simp only [EmojiMaHoa.generateGame]
    rw [if_neg hthE]
  refine ⟨?_, ?_, ?_, ?_, ?_, ?_, ?_, ?_⟩
  · rw [hns]
    exact hcatch.2.1
  · rw [hns]
    exact hcatch.1
  · rw [hns]
    exact hcatch.2.2.2.2.1
  · rw [htt]
  · rw [htt]
  · rw [htt]
  · intro hrl
    rw [hem]
    have hac : EmojiMaHoa.applyCatch { stE with isLoading := true, error := none } mE
        = { (EmojiMaHoa.loadDefaultData
              { stE with isLoading := true, error := none }) with
            isLoading := false } := by
      simp only [EmojiMaHoa.applyCatch, hrl]
      rfl
    rw [hac]
    exact ⟨rfl, rfl, rfl⟩
  · intro hrl
    rw [hem]
    have hac : EmojiMaHoa.applyCatch { stE with isLoading := true, error := none } mE
        = { stE with isLoading := false, error := some mE } := by
      simp only [EmojiMaHoa.applyCatch, hrl]
      rfl
    rw [hac]
    exact ⟨rfl, rfl, rfl⟩

/-- Claim C5 instance: the amended behaviour evaluated on concrete states
and messages. -/
theorem claimC5_witness :
    (ToTracNghiem.generateNew revCmp [RemoteOutcome.err "network down"]
      sampleTTState).patterns = sampleTTState.patterns ∧
    (EmojiMaHoa.generateGame (RemoteOutcome.err "429 quota") sampleEMState).error
      = none ∧
    (NoiSo.generateNew revCmp revCmp (RemoteOutcome.err "network down")
      emptyNSState).error = none := by
  have h := claimC5_amended_failure_handling revCmp revCmp "network down"
    emptyNSState (by decide) revCmp [RemoteOutcome.err "network down"]
    "network down" sampleTTState rfl "429 quota" sampleEMState (by decide)
  exact ⟨h.2.2.2.2.1, (h.2.2.2.2.2.2.1 (by decide)).2.1, h.2.1⟩

/-- Claim C6 counterexample: after a malformed remote response the fallback
completes with the error notice cleared, not present (both variants), and
the number matching state is a shuffled arrangement of the default payload
rather than exactly the hard-coded order. -/
theorem claimC6_counterexample :
    (NoiSo.generateNew revCmp revCmp shortNSPayload emptyNSState).error
      = none ∧
    (NoiSo.generateNew revCmp revCmp shortNSPayload emptyNSState).leftItems.map
        NoiSo.LeftItem.svg
      ≠ NoiSo.defaultGameData.map NoiSo.PairItem.svg ∧
    (TimHinhDung.generateNew shortTHPayload emptyTHState).error = none := by
  refine ⟨?_, ?_, ?_⟩ <;> decide

/-- Claim C6 (amended): on a malformed remote response, the number matching
game rebuilds its state from exactly the hard-coded default payload (in a
shuffled arrangement, with connections reset) and the visual-logic game
installs exactly the hard-coded default puzzle with missing index 4; in
both, loadDefaultData/loadDefaultPuzzle clears the error notice, so no
notice remains after the fallback completes. -/
theorem claimC6_amended_fallback (rB : Shuffler NoiSo.PairItem)
    (rR : Shuffler NoiSo.RightItem) (data : List NoiSo.PairItem)
    (st : NoiSo.NSState) (hshort : data.length < 5)
    (hth : ¬(strTrim st.theme).data.isEmpty = true)
    (raw : TimHinhDung.RawPuzzle) (stT : TimHinhDung.THState)
    (hbad : (TimHinhDung.jsIndexOf raw.grid "MISSING" == -1
        || raw.options.length != 5) = true) :
    (NoiSo.generateNew rB rR (RemoteOutcome.ok data) st).error = none ∧
    (NoiSo.generateNew rB rR (RemoteOutcome.ok data) st).isLoading = false ∧
    (NoiSo.generateNew rB rR (RemoteOutcome.ok data) st).connections = [] ∧
    List.Perm
      ((NoiSo.generateNew rB rR (RemoteOutcome.ok data) st).leftItems.map
        (fun l => (l.svg, l.count)))
      (NoiSo.defaultGameData.map (fun p => (p.svg, p.count))) ∧
    List.Perm
      ((NoiSo.generateNew rB rR (RemoteOutcome.ok data) st).rightItems.map
        NoiSo.RightItem.count)
      (NoiSo.defaultGameData.map NoiSo.PairItem.count) ∧
    (TimHinhDung.generateNew (RemoteOutcome.ok raw) stT).error = none ∧
    (TimHinhDung.generateNew (RemoteOutcome.ok raw) stT).isLoading = false ∧
    (TimHinhDung.generateNew (RemoteOutcome.ok raw) stT).puzzle = some
      { grid := TimHinhDung.defaultPuzzle.grid,
        options := TimHinhDung.defaultPuzzle.options,
        correctOptionIndex := TimHinhDung.defaultPuzzle.correctOptionIndex,
        missingIndex := 4 } := by
  have hns : NoiSo.generateNew rB rR (RemoteOutcome.ok data) st
      = NoiSo.applyCatch rB rR { st with isLoading := true, error := none }
          "Dữ liệu từ AI không hợp lệ." := by
    simp only [NoiSo.generateNew]
    rw [if_neg hth, if_pos hshort]
  have hcatch := noiso_applyCatch_spec rB rR
    { st with isLoading := true, error := none } "Dữ liệu từ AI không hợp lệ."
  have htim : TimHinhDung.generateNew (RemoteOutcome.ok raw) stT
      = TimHinhDung.applyCatch
          { stT with
            isLoading := true, error := none, selection := none,
            puzzle := none }
          "Invalid data structure from AI." := by
    simp only [TimHinhDung.generateNew]
    rw [if_pos hbad]
  refine ⟨?_, ?_, ?_, ?_, ?_, ?_, ?_, ?_⟩
  · rw [hns]
    exact hcatch.1
  · rw [hns]
    exact hcatch.2.1
  · rw [hns]
    exact hcatch.2.2.1
  · rw [hns]
    exact hcatch.2.2.2.2.1
  · rw [hns]
    exact hcatch.2.2.2.2.2
  · rw [htim]
    rfl
  · rw [htim]
    rfl
  · rw [htim]
    rfl

/-- Claim C6 instance: the amended fallback behaviour evaluated on the
malformed payloads. -/
theorem claimC6_witness :
    (NoiSo.generateNew revCmp revCmp (RemoteOutcome.ok shortNSData)
      emptyNSState).error = none ∧
    (NoiSo.generateNew revCmp revCmp (RemoteOutcome.ok shortNSData)
      emptyNSState).connections = [] ∧
    (TimHinhDung.generateNew (RemoteOutcome.ok shortTHRaw)
      emptyTHState).puzzle = some
      { grid := TimHinhDung.defaultPuzzle.grid,
        options := TimHinhDung.defaultPuzzle.options,
        correctOptionIndex := TimHinhDung.defaultPuzzle.correctOptionIndex,
        missingIndex := 4 } := by
  have h := claimC6_amended_fallback revCmp revCmp shortNSData emptyNSState
    (by decide) (by decide) shortTHRaw emptyTHState (by decide)
  exact ⟨h.1, h.2.2.1, h.2.2.2.2.2.2.2⟩

end KidGame
